import Mathlib

set_option maxRecDepth 8192

/-!
Verification of the healthcare chatbot backend (`backend/app/main.py`).

The embedding models:
* the Python substring test `needle in hay` (`pyIn`),
* Python `str.lower()` (`strLower`, built on `Char.toLower`),
* the `FALLBACK_RESPONSES` table and `get_fallback_response`,
* the `/diagnose` handler `diagnose_symptoms` (model outcome abstracted as an
  oracle: no client configured, a raised exception, or a reply text),
* the conversation log (`load_conversations`, `save_conversation`) with the
  on-disk file abstracted as absent, corrupt, or a stored list of records,
* the `/history` handler `get_conversation_history`.
-/

/-- Model of the Python containment test `needle in hay` on lists of
characters: true iff `needle` occurs as a contiguous sublist of `hay`. -/
def strContainsAux (needle : List Char) : List Char → Bool
  | [] => needle.isEmpty
  | c :: rest => needle.isPrefixOf (c :: rest) || strContainsAux needle rest

/-- Model of the Python expression `needle in hay` for strings. -/
def pyIn (needle hay : String) : Bool :=
  strContainsAux needle.data hay.data

/-- Model of Python `str.lower()` (the source only ever lowercases ASCII
symptom text, matching `Char.toLower`). -/
def strLower (s : String) : String :=
  String.mk (s.data.map Char.toLower)

/-- `FALLBACK_RESPONSES["mild"]["headache"]`. -/
def mild_headache_text : String :=
  "For mild headaches, try: Rest in a quiet, dark room; Stay hydrated; Apply a cold or warm compress to your head; Consider over-the-counter pain relievers like ibuprofen or acetaminophen. If headaches persist or worsen, consult a healthcare provider."

/-- `FALLBACK_RESPONSES["mild"]["cold"]`. -/
def mild_cold_text : String :=
  "For common cold symptoms: Get plenty of rest; Stay hydrated with water, warm tea, or clear broths; Use a humidifier or breathe steam from a hot shower; Gargle with warm salt water for sore throat. Most cold symptoms resolve within 7-10 days. Consult a doctor if symptoms worsen or persist beyond 10 days."

/-- `FALLBACK_RESPONSES["mild"]["fever"]`. -/
def mild_fever_text : String :=
  "For mild fever (under 102°F): Rest and stay hydrated; Use over-the-counter fever reducers like acetaminophen or ibuprofen; Dress lightly and use cool compresses; Monitor temperature regularly. Seek medical attention if fever exceeds 102°F, persists more than 3 days, or is accompanied by severe symptoms."

/-- `FALLBACK_RESPONSES["mild"]["default"]`. -/
def mild_default_text : String :=
  "Based on your symptoms, here are some general recommendations: Get adequate rest; Stay well-hydrated; Monitor your symptoms; Consider over-the-counter remedies if appropriate. However, if symptoms worsen, persist, or you have concerns, please consult with a healthcare professional for proper evaluation and treatment."

/-- `FALLBACK_RESPONSES["serious"]["chest"]`. -/
def serious_chest_text : String :=
  "⚠️ CHEST PAIN requires immediate medical attention. Please contact emergency services (911) or go to the nearest emergency room immediately. Do not delay seeking medical care for chest pain."

/-- `FALLBACK_RESPONSES["serious"]["breathing"]`. -/
def serious_breathing_text : String :=
  "⚠️ DIFFICULTY BREATHING is a serious symptom. Seek immediate medical attention by calling emergency services (911) or going to the nearest emergency room. This requires urgent evaluation by healthcare professionals."

/-- `FALLBACK_RESPONSES["serious"]["severe"]`. -/
def serious_severe_text : String :=
  "⚠️ Based on your symptoms, this appears to require immediate medical attention. Please contact emergency services (911) or go to the nearest emergency room right away. Do not delay seeking professional medical care."

/-- `FALLBACK_RESPONSES["serious"]["default"]`. -/
def serious_default_text : String :=
  "⚠️ Your symptoms suggest you should seek medical attention promptly. Please contact your healthcare provider, urgent care center, or emergency services if symptoms are severe. Professional medical evaluation is recommended."

/-- The nested `FALLBACK_RESPONSES` dictionary: severity key, then response
key, returning `none` for keys absent from the table. -/
def FALLBACK_RESPONSES : String → String → Option String
  | "mild", "headache" => some mild_headache_text
  | "mild", "cold" => some mild_cold_text
  | "mild", "fever" => some mild_fever_text
  | "mild", "default" => some mild_default_text
  | "serious", "chest" => some serious_chest_text
  | "serious", "breathing" => some serious_breathing_text
  | "serious", "severe" => some serious_severe_text
  | "serious", "default" => some serious_default_text
  | _, _ => none

/-- `serious_keywords` from `get_fallback_response`. -/
def serious_keywords : List String :=
  ["chest pain", "chest", "breathing", "breath", "severe", "emergency",
   "unconscious", "bleeding heavily"]

/-- `mild_indicators` from `get_fallback_response`. -/
def mild_indicators : List String :=
  ["mild", "slight", "little", "minor"]

/-- The branch structure of `get_fallback_response` applied to the already
lowercased symptom text (the Python body after `symptoms_lower = symptoms.lower()`;
each Python `return` becomes an `else`-chain branch). -/
def classify_lower (symptoms_lower : String) : String × String :=
  if serious_keywords.any (fun keyword => pyIn keyword symptoms_lower) then
    if pyIn "chest" symptoms_lower then (serious_chest_text, "serious")
    else if pyIn "breath" symptoms_lower then (serious_breathing_text, "serious")
    else (serious_severe_text, "serious")
  else if pyIn "headache" symptoms_lower || pyIn "head" symptoms_lower then
    (mild_headache_text, "mild")
  else if pyIn "cold" symptoms_lower || pyIn "cough" symptoms_lower
      || pyIn "runny nose" symptoms_lower then
    (mild_cold_text, "mild")
  else if pyIn "fever" symptoms_lower && pyIn "mild" symptoms_lower then
    (mild_fever_text, "mild")
  else if mild_indicators.any (fun indicator => pyIn indicator symptoms_lower) then
    (mild_default_text, "mild")
  else (serious_default_text, "serious")

/-- `get_fallback_response(symptoms)`: lowercase, then run the keyword
chain; returns the `(response text, severity)` pair. -/
def get_fallback_response (symptoms : String) : String × String :=
  classify_lower (strLower symptoms)

/-- The `serious_keywords` list scanned over the model reply inside the
`/diagnose` handler to pick the severity of an OpenAI answer. -/
def model_serious_keywords : List String :=
  ["doctor", "emergency", "hospital", "serious", "severe",
   "immediate", "urgent", "medical attention", "911", "seek care"]

/-- Severity assigned to a model reply in `diagnose_symptoms`:
`"serious"` iff the lowercased reply contains one of the keywords. -/
def model_severity (ai_response : String) : String :=
  if model_serious_keywords.any (fun keyword => pyIn keyword (strLower ai_response)) then
    "serious"
  else "mild"

/-- Outcome of the model-client stage of `/diagnose`: the client is
unconfigured (`client is None`), the API call raised, or it returned a
(stripped) reply text. -/
inductive ModelOutcome where
  | noClient : ModelOutcome
  | modelError : ModelOutcome
  | modelReply : String → ModelOutcome

/-- The advice text (before the disclaimer) and severity produced by the
body of `diagnose_symptoms`: the model reply with keyword-derived severity
when the call succeeds, `get_fallback_response` otherwise. -/
def diagnose_core (outcome : ModelOutcome) (symptoms : String) : String × String :=
  match outcome with
  | .modelReply text => (text, model_severity text)
  | .modelError => get_fallback_response symptoms
  | .noClient => get_fallback_response symptoms

/-- One record of the conversations log. -/
structure ConvRecord where
  user : String
  response : String
  severity : String
  timestamp : String

/-- The on-disk `conversations.json` file: absent, unparseable, or a JSON
document `{"conversations": [...]}`, modelled by its list of records. -/
inductive LogFile where
  | absent : LogFile
  | corrupt : LogFile
  | stored : List ConvRecord → LogFile

/-- The default document `{"conversations": []}`. -/
def emptyDoc : List ConvRecord := []

/-- `load_conversations()`: the stored document when the file exists and
parses, the default empty document otherwise. -/
def load_conversations : LogFile → List ConvRecord
  | .stored doc => doc
  | .absent => emptyDoc
  | .corrupt => emptyDoc

/-- `save_conversation(...)` on a successful write: load the current
document, append one record, rewrite the whole file. -/
def save_conversation (file : LogFile) (user_input ai_response severity now : String) :
    LogFile :=
  LogFile.stored (load_conversations file ++
    [{ user := user_input, response := ai_response, severity := severity,
       timestamp := now }])

/-- The fixed disclaimer appended by `/diagnose`. -/
def DISCLAIMER : String :=
  "\n\n⚠️ Disclaimer: This advice is for informational purposes only and does not replace professional medical consultation. Please consult a qualified healthcare provider for proper diagnosis and treatment."

/-- The `DiagnosisResponse` pydantic model. -/
structure DiagnosisResponse where
  advice : String
  severity : String
  timestamp : String

/-- The `/diagnose` handler: compute advice and severity, append the
disclaimer, save the conversation (a failed write, `saveOk = false`, is
caught inside `save_conversation` and leaves the file as it was), and
return the response. `saveTime` and `respTime` are the two
`datetime.now()` reads. -/
def diagnose_symptoms (outcome : ModelOutcome) (symptoms : String) (file : LogFile)
    (saveOk : Bool) (saveTime respTime : String) : DiagnosisResponse × LogFile :=
  let res := diagnose_core outcome symptoms
  let advice := res.1 ++ DISCLAIMER
  let newFile := if saveOk then save_conversation file symptoms advice res.2 saveTime
    else file
  ({ advice := advice, severity := res.2, timestamp := respTime }, newFile)

/-- The `/history` handler: returns `load_conversations()` and leaves the
file untouched. -/
def get_conversation_history (file : LogFile) : List ConvRecord × LogFile :=
  (load_conversations file, file)

/-- `Char.toLower` unfolded to its conditional form. -/
theorem char_toLower_eq (c : Char) :
    c.toLower = if c.toNat ≥ 65 ∧ c.toNat ≤ 90 then Char.ofNat (c.toNat + 32) else c := rfl

/-- `Char.ofNat` round-trips through `toNat` on valid codepoints. -/
theorem char_toNat_ofNat_valid (n : Nat) (h : n.isValidChar) :
    (Char.ofNat n).toNat = n := by
  unfold Char.ofNat
  rw [dif_pos h]
  rfl

/-- Lowercasing a character twice equals lowercasing it once. -/
theorem char_toLower_idem (c : Char) : (c.toLower).toLower = c.toLower := by
  by_cases h : c.toNat ≥ 65 ∧ c.toNat ≤ 90
  · have h1 : c.toLower = Char.ofNat (c.toNat + 32) := by
      rw [char_toLower_eq, if_pos h]
    have hv : (c.toNat + 32).isValidChar := Or.inl (by omega)
    have ht : (Char.ofNat (c.toNat + 32)).toNat = c.toNat + 32 :=
      char_toNat_ofNat_valid _ hv
    rw [h1, char_toLower_eq, ht, if_neg (by omega)]
  · have h1 : c.toLower = c := by rw [char_toLower_eq, if_neg h]
    rw [h1, h1]

/-- `strLower` is idempotent. -/
theorem strLower_idem (s : String) : strLower (strLower s) = strLower s := by
  show String.mk ((s.data.map Char.toLower).map Char.toLower)
      = String.mk (s.data.map Char.toLower)
  rw [List.map_map]
  exact congrArg String.mk (List.map_congr_left (fun c _ => char_toLower_idem c))

/-- The severity component of `get_fallback_response` is always one of the
two literals. -/
theorem fallback_severity_mild_or_serious (s : String) :
    (get_fallback_response s).2 = "mild" ∨ (get_fallback_response s).2 = "serious" := by
  unfold get_fallback_response classify_lower
  split_ifs <;> simp

example : get_fallback_response "I have a mild headache" = (mild_headache_text, "mild") := by
  decide

example : get_fallback_response "CHEST pain and mild cough" = (serious_chest_text, "serious") := by
  decide

example : get_fallback_response "fever" = (serious_default_text, "serious") := by
  decide

/-- Claim C1: every classification is exactly one of the two strings
"mild" or "serious": `get_fallback_response` returns such a severity for
every symptoms string, and every successful `/diagnose` response carries a
severity in that two-element set. -/
theorem C1_severity_two_element_set (outcome : ModelOutcome) (symptoms : String)
    (file : LogFile) (saveOk : Bool) (saveTime respTime : String) :
    ((get_fallback_response symptoms).2 = "mild" ∨
      (get_fallback_response symptoms).2 = "serious") ∧
    ((diagnose_symptoms outcome symptoms file saveOk saveTime respTime).1.severity = "mild" ∨
      (diagnose_symptoms outcome symptoms file saveOk saveTime respTime).1.severity
        = "serious") := by
  refine ⟨fallback_severity_mild_or_serious symptoms, ?_⟩
  cases outcome with
  | modelReply text =>
      show (model_severity text = "mild" ∨ model_severity text = "serious")
      unfold model_severity
      split_ifs <;> simp
  | modelError => exact fallback_severity_mild_or_serious symptoms
  | noClient => exact fallback_severity_mild_or_serious symptoms

/-- Claim C2: the advice returned by `/diagnose` is the model or fallback
text with the fixed disclaimer (which begins "\n\n⚠️ Disclaimer:")
appended at the end, on every path. -/
theorem C2_disclaimer_always_appended (outcome : ModelOutcome) (symptoms : String)
    (file : LogFile) (saveOk : Bool) (saveTime respTime : String) :
    (diagnose_symptoms outcome symptoms file saveOk saveTime respTime).1.advice
      = (diagnose_core outcome symptoms).1 ++ DISCLAIMER ∧
    "\n\n⚠️ Disclaimer:".data.isPrefixOf DISCLAIMER.data = true :=
  ⟨rfl, by decide⟩

/-- Claim C3: `/diagnose` derives its pre-disclaimer advice and severity
from `get_fallback_response` exactly when the client is unconfigured or
the model call raised; on a successful model reply it uses the reply text
and the keyword-derived severity instead. -/
theorem C3_fallback_on_absence_or_error (outcome : ModelOutcome) (symptoms : String) :
    ((outcome = ModelOutcome.noClient ∨ outcome = ModelOutcome.modelError) →
      diagnose_core outcome symptoms = get_fallback_response symptoms) ∧
    (∀ text : String,
      diagnose_core (ModelOutcome.modelReply text) symptoms = (text, model_severity text)) := by
  refine ⟨?_, fun text => rfl⟩
  rintro (rfl | rfl) <;> rfl

theorem C3_fallback_on_absence_or_error_witness :
    diagnose_core ModelOutcome.noClient "I have a headache" =
      get_fallback_response "I have a headache" :=
  (C3_fallback_on_absence_or_error ModelOutcome.noClient "I have a headache").1 (Or.inl rfl)

/-- Claim C4: for every symptoms string, `get_fallback_response` returns a
pair whose text is an entry of the `FALLBACK_RESPONSES` table under its
own severity: there is a key `k` with
`FALLBACK_RESPONSES severity k = some text`. -/
theorem C4_fallback_text_from_table (symptoms : String) :
    ∃ k : String,
      FALLBACK_RESPONSES (get_fallback_response symptoms).2 k
        = some (get_fallback_response symptoms).1 := by
  unfold get_fallback_response classify_lower
  split_ifs <;>
    first
      | exact ⟨"chest", rfl⟩
      | exact ⟨"breathing", rfl⟩
      | exact ⟨"severe", rfl⟩
      | exact ⟨"headache", rfl⟩
      | exact ⟨"cold", rfl⟩
      | exact ⟨"fever", rfl⟩
      | exact ⟨"default", rfl⟩

/-- Claim C5: a successful `/diagnose` request rewrites the stored
document as exactly the old records followed by one new record whose
`response` is the returned advice (disclaimer included) and whose
`severity` is the returned severity. -/
theorem C5_persist_appends_one_record (outcome : ModelOutcome) (symptoms : String)
    (doc : List ConvRecord) (saveTime respTime : String) :
    (diagnose_symptoms outcome symptoms (LogFile.stored doc) true saveTime respTime).2
      = LogFile.stored (doc ++
          [{ user := symptoms,
             response :=
               (diagnose_symptoms outcome symptoms (LogFile.stored doc) true saveTime
                 respTime).1.advice,
             severity :=
               (diagnose_symptoms outcome symptoms (LogFile.stored doc) true saveTime
                 respTime).1.severity,
             timestamp := saveTime }]) := rfl

/-- Claim C6: the fallback classifier is case-insensitive: it agrees on a
string and its lowercased form, and its result depends only on the
lowercased text of the input. -/
theorem C6_fallback_case_insensitive (s : String) :
    get_fallback_response s = get_fallback_response (strLower s) ∧
    (∀ t : String, strLower s = strLower t →
      get_fallback_response s = get_fallback_response t) := by
  constructor
  · show classify_lower (strLower s) = classify_lower (strLower (strLower s))
    rw [strLower_idem]
  · intro t h
    show classify_lower (strLower s) = classify_lower (strLower t)
    rw [h]

theorem C6_fallback_case_insensitive_witness :
    get_fallback_response "SEVERE Chest Pain" = get_fallback_response "severe chest pain" :=
  (C6_fallback_case_insensitive "SEVERE Chest Pain").2 "severe chest pain" (by decide)

/-- Claim C7: `/history` returns the currently stored document without
modifying it, and `load_conversations` yields the default document
`{"conversations": []}` when the file is absent or unparseable. -/
theorem C7_history_reads_without_mutation (file : LogFile) :
    (get_conversation_history file).1 = load_conversations file ∧
    (get_conversation_history file).2 = file ∧
    load_conversations LogFile.absent = emptyDoc ∧
    load_conversations LogFile.corrupt = emptyDoc :=
  ⟨rfl, rfl, rfl, rfl⟩

/-- Claim C8: serious keywords take precedence: any serious keyword in the
lowercased symptoms forces severity "serious" regardless of mild
indicators, and within the serious branch the "chest" response wins
whenever "chest" occurs (even alongside "breath"). -/
theorem C8_serious_keywords_take_precedence (s : String) :
    (∀ k ∈ serious_keywords, pyIn k (strLower s) = true →
      (get_fallback_response s).2 = "serious") ∧
    (pyIn "chest" (strLower s) = true →
      get_fallback_response s = (serious_chest_text, "serious")) := by
  constructor
  · intro k hk hin
    unfold get_fallback_response classify_lower
    rw [if_pos (List.any_eq_true.mpr ⟨k, hk, hin⟩)]
    split_ifs <;> rfl
  · intro hchest
    have hany : serious_keywords.any (fun keyword => pyIn keyword (strLower s)) = true :=
      List.any_eq_true.mpr ⟨"chest", by simp [serious_keywords], hchest⟩
    unfold get_fallback_response classify_lower
    rw [if_pos hany, if_pos hchest]

theorem C8_serious_keywords_take_precedence_witness :
    (get_fallback_response "mild chest pain, trouble breathing").2 = "serious" ∧
    get_fallback_response "mild chest pain, trouble breathing"
      = (serious_chest_text, "serious") :=
  ⟨(C8_serious_keywords_take_precedence "mild chest pain, trouble breathing").1
      "chest" (by decide) (by decide),
    (C8_serious_keywords_take_precedence "mild chest pain, trouble breathing").2
      (by decide)⟩

/-- Claim C9: symptoms containing "fever" but no serious keyword, none of
the headache/cold keywords, and no mild indicator get the serious default
response: the dedicated mild-fever response needs "mild" to appear too. -/
theorem C9_bare_fever_is_serious (s : String)
    (hfever : pyIn "fever" (strLower s) = true)
    (hserious : ∀ k ∈ serious_keywords, pyIn k (strLower s) = false)
    (hheadache : pyIn "headache" (strLower s) = false)
    (hhead : pyIn "head" (strLower s) = false)
    (hcold : pyIn "cold" (strLower s) = false)
    (hcough : pyIn "cough" (strLower s) = false)
    (hrunny : pyIn "runny nose" (strLower s) = false)
    (hmild : ∀ m ∈ mild_indicators, pyIn m (strLower s) = false) :
    get_fallback_response s = (serious_default_text, "serious") := by
  have hs : serious_keywords.any (fun keyword => pyIn keyword (strLower s)) = false := by
    simp only [List.any_eq_false]
    intro k hk
    simp [hserious k hk]
  have hm : mild_indicators.any (fun indicator => pyIn indicator (strLower s)) = false := by
    simp only [List.any_eq_false]
    intro m hm2
    simp [hmild m hm2]
  have hmildword : pyIn "mild" (strLower s) = false :=
    hmild "mild" (by simp [mild_indicators])
  unfold get_fallback_response classify_lower
  rw [hs, hheadache, hhead, hcold, hcough, hrunny, hmildword, hm]
  simp

theorem C9_bare_fever_is_serious_witness :
    get_fallback_response "fever" = (serious_default_text, "serious") :=
  C9_bare_fever_is_serious "fever" (by decide) (by decide) (by decide) (by decide)
    (by decide) (by decide) (by decide) (by decide)

/-- Claim C10: a persistence failure is swallowed: the response of
`/diagnose` is the same whether the save succeeds or fails; only the
stored file can differ. -/
theorem C10_save_failure_swallowed (outcome : ModelOutcome) (symptoms : String)
    (file : LogFile) (saveTime respTime : String) (saveOk : Bool) :
    (diagnose_symptoms outcome symptoms file saveOk saveTime respTime).1
      = (diagnose_symptoms outcome symptoms file true saveTime respTime).1 := rfl
